import Mathlib

/-
Verification of the browser-automation session manager and action executor
in src/app.py against its specification.

The module-level globals `playwright`, `browser_context`, `page`,
`current_browser` (src/app.py lines 133-136) become a `SessionState` record.
Browser contexts and pages are identified by natural-number ids drawn from a
fresh-id counter, so that reuse ("the same page is returned") and relaunch
("a different page is returned") are observable.  External effects performed
by a call (closing a context, stopping or starting playwright, launching an
engine) are recorded in an event trace.  The results of the two external
probes a call makes — `page.is_closed()` and whether
`launch_persistent_context` succeeds — are passed in as parameters, since
they are answered by the browser process, not by this code.
-/

namespace Broadd

/-- The three playwright engine families (src/app.py lines 268-273). -/
inductive Engine
  | chromium
  | firefox
  | webkit
  deriving DecidableEq

/-- The fixed persistent-profile directory (src/app.py line 138:
`os.path.expanduser("~/.playwright-profile")`). -/
def USER_DATA_DIR : String := "~/.playwright-profile"

/-- Observable external effects of a session-manager call. -/
inductive Event
  | closeContext (ctx : Nat)
  | stopPlaywright
  | startPlaywright
  | launch (engine : Engine) (userDataDir : String) (ctx : Nat)
  deriving DecidableEq

/-- The module-level session globals of src/app.py (lines 133-136), plus the
bookkeeping needed to observe identity: `openContexts` lists the ids of every
context launched and not yet closed, and `nextId` is the fresh-id counter. -/
structure SessionState where
  playwright : Bool
  browser_context : Option Nat
  page : Option Nat
  current_browser : String
  openContexts : List Nat
  nextId : Nat
  deriving DecidableEq

/-- The initial global state (src/app.py lines 133-136): nothing running and
`current_browser = "chromium"`. -/
def initState : SessionState :=
  { playwright := false, browser_context := none, page := none,
    current_browser := "chromium", openContexts := [], nextId := 0 }

/-- ASCII lowercase of one character, as Python `str.lower` and JavaScript
`toLowerCase` act on ASCII input. -/
def charLower (c : Char) : Char :=
  if 'A' ≤ c && c ≤ 'Z' then Char.ofNat (c.toNat + 32) else c

/-- Lowercase of a string, character by character. -/
def strLower (s : String) : String :=
  ⟨s.data.map charLower⟩

/-- ASCII whitespace, as JavaScript `trim` removes it. -/
def isWsChar (c : Char) : Bool :=
  c == ' ' || c == '\t' || c == '\n' || c == '\r'

/-- JavaScript `trim`: strip leading and trailing whitespace. -/
def strTrim (s : String) : String :=
  ⟨((s.data.dropWhile isWsChar).reverse.dropWhile isWsChar).reverse⟩

/-- Engine dispatch on an already-lowercased name (src/app.py lines 268-273):
"firefox" and "webkit" select their engines, anything else falls through to
chromium. -/
def selectEngine (bn : String) : Engine :=
  if bn = "firefox" then Engine.firefox
  else if bn = "webkit" then Engine.webkit
  else Engine.chromium

/-- The engine a raw requested name selects: src/app.py line 267 lowercases
the name before the dispatch of lines 268-273. -/
def engineFor (browser_name : String) : Engine :=
  selectEngine (strLower browser_name)

deriving instance DecidableEq for Except

/-- Result of `get_browser_context`: the returned page id or the raised
launch error, the updated globals, and the trace of external effects. -/
structure AcquireResult where
  out : Except String Nat
  state : SessionState
  trace : List Event
  deriving DecidableEq

/-- Models `get_browser_context` (src/app.py lines 243-284).
`req` is the `browser_name` argument (`none` when the caller passes no
engine), `pageClosed` is what `page.is_closed()` would report for the
current page, and `launchFail` is `some cause` when
`launch_persistent_context` would raise with that cause.

Line by line: 247-248 substitute `current_browser` for a missing name;
251-252 reuse the page when it is non-null, not closed, and the (unlowered)
name equals `current_browser`; 255-261 close the context and stop playwright
only when a context exists and the name differs; 264-265 start playwright if
absent; 267-273 lowercase the name and pick the engine; 276-284 launch the
persistent context with the fixed profile directory, take its page, and
record the lowered name as `current_browser`. -/
def acquire (s : SessionState) (req : Option String) (pageClosed : Bool)
    (launchFail : Option String) : AcquireResult :=
  let browser_name := req.getD s.current_browser
  if s.page.isSome && !pageClosed && (s.current_browser == browser_name) then
    { out := Except.ok (s.page.getD 0), state := s, trace := [] }
  else
    let step1 :=
      match s.browser_context with
      | some cid =>
          if s.current_browser == browser_name then (s, ([] : List Event))
          else
            ({ s with browser_context := none, playwright := false, page := none,
                      openContexts := s.openContexts.erase cid },
             Event.closeContext cid ::
               (if s.playwright then [Event.stopPlaywright] else []))
      | none => (s, ([] : List Event))
    let s1 := step1.1
    let t1 := step1.2
    let step2 :=
      if s1.playwright then (s1, ([] : List Event))
      else ({ s1 with playwright := true }, [Event.startPlaywright])
    let s2 := step2.1
    let t2 := step2.2
    let bn := strLower browser_name
    let eng := selectEngine bn
    match launchFail with
    | some cause => { out := Except.error cause, state := s2, trace := t1 ++ t2 }
    | none =>
        let cid := s2.nextId
        { out := Except.ok cid,
          state := { s2 with browser_context := some cid, page := some cid,
                             current_browser := bn,
                             openContexts := cid :: s2.openContexts,
                             nextId := cid + 1 },
          trace := t1 ++ t2 ++ [Event.launch eng USER_DATA_DIR cid] }

/-- Result of the `close` endpoint: the returned message, the updated
globals, and the trace of external effects. -/
structure CloseResult where
  msg : String
  state : SessionState
  trace : List Event
  deriving DecidableEq

/-- Models the `close` endpoint (src/app.py lines 452-478): when a context
exists it is closed, playwright is stopped if running, all three handles are
reset and `current_browser` returns to "chromium", answering
"Browser closed"; otherwise nothing happens and the answer is
"No browser running". -/
def close (s : SessionState) : CloseResult :=
  match s.browser_context with
  | some cid =>
      { msg := "Browser closed",
        state := { s with browser_context := none, playwright := false, page := none,
                          current_browser := "chromium",
                          openContexts := s.openContexts.erase cid },
        trace := Event.closeContext cid ::
                   (if s.playwright then [Event.stopPlaywright] else []) }
  | none => { msg := "No browser running", state := s, trace := [] }

/-- Python rendering of an optional string inside an f-string. -/
def optReprPy : Option String → String
  | none => "None"
  | some s => s

/-- Result of the `navigate` endpoint: the success message or the HTTP
status/detail pair of the raised `HTTPException`. -/
structure NavResult where
  out : Except (Nat × String) String
  state : SessionState
  trace : List Event
  deriving DecidableEq

/-- Models the `navigate` endpoint (src/app.py lines 286-306): it calls
`get_browser_context` with the requested browser and wraps any raised
exception into an `HTTPException(status_code=500, detail=str(e))`; the
`goto("about:blank")` on the obtained page is not modelled. -/
def navigate (s : SessionState) (browser : Option String) (pageClosed : Bool)
    (launchFail : Option String) : NavResult :=
  let r := acquire s browser pageClosed launchFail
  match r.out with
  | Except.ok _ =>
      { out := Except.ok ("Opened browser: " ++ optReprPy browser),
        state := r.state, trace := r.trace }
  | Except.error cause =>
      { out := Except.error (500, cause), state := r.state, trace := r.trace }

/-- A DOM element as the click/fill actions see it: its tag, its `type`
attribute (relevant for `input` elements), and its `textContent`. -/
structure Element where
  tag : String
  typeAttr : String
  textContent : String
  deriving DecidableEq

/-- The element set scanned by the text-click script (src/app.py line 346):
`document.querySelectorAll('a,button,input[type="button"],input[type="submit"]')`. -/
def isInteractive (e : Element) : Bool :=
  e.tag == "a" || e.tag == "button" ||
    (e.tag == "input" && (e.typeAttr == "button" || e.typeAttr == "submit"))

/-- Character-list prefix test, used to define substring containment. -/
def isPrefixOfChars : List Char → List Char → Bool
  | [], _ => true
  | _ :: _, [] => false
  | a :: as, b :: bs => a == b && isPrefixOfChars as bs

/-- Character-list substring containment at any position. -/
def containsSub (needle : List Char) : List Char → Bool
  | [] => needle.isEmpty
  | c :: rest => isPrefixOfChars needle (c :: rest) || containsSub needle rest

/-- JavaScript `haystack.includes(needle)`: substring containment. -/
def strIncludes (haystack needle : String) : Bool :=
  containsSub needle.data haystack.data

/-- The per-element predicate of the text-click script (src/app.py line 347):
`e.textContent && e.textContent.trim().toLowerCase().includes(t)` where `t`
is the Python-lowercased requested text interpolated into the script. -/
def textMatches (t : String) (e : Element) : Bool :=
  e.textContent != "" && strIncludes (strLower (strTrim e.textContent)) (strLower t)

/-- The page as the action executor sees it: the DOM in document order, and
for each CSS selector the (document-ordered) indices of the elements it
matches — selector evaluation itself is delegated to the browser engine,
which the spec treats as a black box. -/
structure PageEnv where
  dom : List Element
  selMatches : String → List Nat

/-- `page.locator(sel).count()` (src/app.py lines 333-334, 388-389). -/
def selCount (env : PageEnv) (sel : String) : Nat :=
  (env.selMatches sel).length

/-- DOM side effects an action performs: a locator click on the element at a
document index, a script-driven click on an element, or a fill of the
element at a document index with a value. -/
inductive DomAction
  | clickEl (idx : Nat)
  | jsClickEl (e : Element)
  | fillEl (idx : Nat) (value : String)
  deriving DecidableEq

/-- Stand-in for the playwright strict-mode violation message: the `str(e)`
interpolated at src/app.py line 401 carries the engine's own text, which is
opaque to this code. -/
def strictModeMsg : String := "strict mode violation"

/-- Stand-in for the JavaScript syntax-error message raised by
`page.evaluate` on a broken script: the `str(e)` interpolated at
src/app.py line 364 carries the engine's own text, opaque to this code. -/
def jsSyntaxErrorMsg : String := "SyntaxError"

/-- Whether a text can be embedded verbatim inside a single- or
double-quoted JavaScript string literal: it must contain no double quote
(code 34), no single quote (39), no backslash (92), and no line terminator
(10, 13).  The click script interpolates the request text literally
(src/app.py lines 344-356) — once lowercased inside `includes(...)` single
quotes and once raw inside double quotes — so an unsafe text makes the
whole script a syntax error and `page.evaluate` raises before anything
runs.  ASCII lowercasing neither adds nor removes any of these characters,
so safety of the raw text covers the lowered copy too. -/
def jsStringSafe (t : String) : Bool :=
  t.data.all fun c =>
    !(c.toNat == 34 || c.toNat == 39 || c.toNat == 92 ||
      c.toNat == 10 || c.toNat == 13)

/-- An `HTTPException`: status code and detail message. -/
structure HErr where
  status : Nat
  detail : String
  deriving DecidableEq

/-- The `ClickInput` model of src/app.py lines 160-173. -/
structure ClickInput where
  selector : Option String
  text : Option String

/-- Python truthiness of an optional string: `None` and `""` are falsy. -/
def truthy : Option String → Bool
  | none => false
  | some s => s != ""

/-- Outcome of an action endpoint: the returned body or the raised
`HTTPException`, with the DOM actions performed. -/
structure ActionResult where
  out : Except HErr String
  actions : List DomAction
  deriving DecidableEq

/-- Models the `click` endpoint body after the page is acquired
(src/app.py lines 331-364).  A truthy selector is checked for a non-zero
match count before `element.first.click()` runs; zero matches raises a 400
naming the selector.  Otherwise a truthy text builds the find-and-click
script by f-string interpolation of the text: when the text embeds cleanly
(`jsStringSafe`), the script's no-match branch returns a plain message
through `page.evaluate`, not an error; when it does not, the script is a
syntax error, `page.evaluate` raises, and the handler's except branch
(line 364) turns it into a 500 "Click failed: " error with nothing
clicked.  With neither field, a 400 is raised. -/
def click (env : PageEnv) (inp : ClickInput) : ActionResult :=
  if truthy inp.selector then
    let sel := inp.selector.getD ""
    if selCount env sel = 0 then
      { out := Except.error
          { status := 400,
            detail := "Element with selector '" ++ sel ++ "' not found on the page." },
        actions := [] }
    else
      { out := Except.ok ("Clicked first element matching " ++ sel),
        actions := [DomAction.clickEl ((env.selMatches sel).headD 0)] }
  else if truthy inp.text then
    let t := inp.text.getD ""
    if jsStringSafe t then
      match (env.dom.filter isInteractive).find? (textMatches t) with
      | some e =>
          { out := Except.ok ("Clicked: " ++ strTrim e.textContent),
            actions := [DomAction.jsClickEl e] }
      | none =>
          { out := Except.ok ("No element found with text: " ++ t), actions := [] }
    else
      { out := Except.error
          { status := 500, detail := "Click failed: " ++ jsSyntaxErrorMsg },
        actions := [] }
  else
    { out := Except.error
        { status := 400,
          detail := "Either selector or text must be provided." },
      actions := [] }

/-- The `FillInput` model of src/app.py lines 175-185. -/
structure FillInput where
  selector : String
  value : String

/-- Models the `fill` endpoint body after the page is acquired
(src/app.py lines 388-401): zero matches raises a 400 naming the selector
and nothing is filled.  Otherwise `element.fill(input.value)` runs on the
whole locator — unlike the click path there is no `.first` — and playwright
locators are strict: with exactly one matched element that element is
filled with the literal value and a confirmation is returned; with two or
more, the action raises a strict-mode violation, which the handler's
except branch (line 401) turns into a 500 "Fill failed: " error with
nothing filled. -/
def fill (env : PageEnv) (inp : FillInput) : ActionResult :=
  if selCount env inp.selector = 0 then
    { out := Except.error
        { status := 400,
          detail := "Element with selector '" ++ inp.selector ++ "' not found on the page." },
      actions := [] }
  else if selCount env inp.selector = 1 then
    { out := Except.ok ("Filled " ++ inp.selector ++ " with '" ++ inp.value ++ "'"),
      actions := [DomAction.fillEl ((env.selMatches inp.selector).headD 0) inp.value] }
  else
    { out := Except.error
        { status := 500, detail := "Fill failed: " ++ strictModeMsg },
      actions := [] }

/-- A live chromium session: one context (id 0) with its page (id 0). -/
def sLive : SessionState :=
  { playwright := true, browser_context := some 0, page := some 0,
    current_browser := "chromium", openContexts := [0], nextId := 1 }

/-- A live firefox session: one context (id 0) with its page (id 0). -/
def sFirefox : SessionState :=
  { playwright := true, browser_context := some 0, page := some 0,
    current_browser := "firefox", openContexts := [0], nextId := 1 }

/-- A page with no elements and no selector matches. -/
def envEmpty : PageEnv := { dom := [], selMatches := fun _ => [] }

/-- A button whose visible text contains "Search" amid whitespace. -/
def btn1 : Element :=
  { tag := "button", typeAttr := "", textContent := " Search now " }

/-- A second button also containing "Search". -/
def btn2 : Element :=
  { tag := "button", typeAttr := "", textContent := "Search again" }

/-- A non-interactive element also containing "Search". -/
def divEl : Element :=
  { tag := "div", typeAttr := "", textContent := "Search" }

/-- A page with one non-interactive and two interactive "Search" elements,
and one selector ("#btn") matching exactly the element at index 1. -/
def envButtons : PageEnv :=
  { dom := [divEl, btn1, btn2],
    selMatches := fun s => if s = "#btn" then [1] else [] }

/-- A page where the selector ".btn" matches two elements (indices 0, 1). -/
def envTwo : PageEnv :=
  { dom := [], selMatches := fun s => if s = ".btn" then [0, 1] else [] }

/-- Lowercasing the literal "chromium" is the identity. -/
theorem strLowerChromium : strLower "chromium" = "chromium" := rfl

/-- The literal "chromium" selects the chromium engine. -/
theorem selectChromium : selectEngine "chromium" = Engine.chromium := rfl

/-- Claim C1 fails as stated: engine identifiers are not matched
case-insensitively by the reuse check.  With a live chromium session whose
page (id 0) is open, requesting "Chromium" does not return the existing
page: the old context is closed, playwright is stopped and restarted, a new
context is launched, and a different page (id 1) is returned. -/
theorem C1_counterexample :
    (acquire sLive (some "Chromium") false none).out = Except.ok 1 ∧
    (acquire sLive (some "Chromium") false none).out ≠ Except.ok 0 ∧
    (acquire sLive (some "Chromium") false none).trace =
      [Event.closeContext 0, Event.stopPlaywright, Event.startPlaywright,
       Event.launch Engine.chromium USER_DATA_DIR 1] := by
  decide

/-- Claim C1 (amended): while a session is live with a non-closed page, if
the requested engine is absent or is exactly (case-sensitively) equal to the
recorded live engine name, the existing active page is returned unchanged
and no close, relaunch, or playwright restart occurs. -/
theorem C1_reuse (s : SessionState) (p : Nat) (hp : s.page = some p)
    (req : Option String) (hreq : req = none ∨ req = some s.current_browser)
    (lf : Option String) :
    acquire s req false lf = { out := Except.ok p, state := s, trace := [] } := by
  rcases hreq with h | h <;> subst h <;> simp [acquire, hp]

/-- Claim C1 witness: reuse at a concrete live chromium session. -/
theorem C1_witness :
    acquire sLive none false none =
      { out := Except.ok 0, state := sLive, trace := [] } :=
  C1_reuse sLive 0 rfl none (Or.inl rfl) none

/-- Claim C2: while a context is live with playwright running, requesting an
engine that differs from the live one closes the old context and stops
playwright before the new launch (the trace is exactly close, stop, start,
launch), the launch uses the fixed profile directory, the returned page is
the new context's page, and the engine selected by the newly recorded
`current_browser` is the launched engine. -/
theorem C2_engine_switch (s : SessionState) (c : Nat) (r : String)
    (hc : s.browser_context = some c) (hpw : s.playwright = true)
    (hdiff : engineFor r ≠ engineFor s.current_browser) (pc : Bool) :
    acquire s (some r) pc none =
      { out := Except.ok s.nextId,
        state := { playwright := true, browser_context := some s.nextId,
                   page := some s.nextId, current_browser := strLower r,
                   openContexts := s.nextId :: s.openContexts.erase c,
                   nextId := s.nextId + 1 },
        trace := [Event.closeContext c, Event.stopPlaywright,
                  Event.startPlaywright,
                  Event.launch (engineFor r) USER_DATA_DIR s.nextId] } ∧
    selectEngine ((acquire s (some r) pc none).state.current_browser) =
      engineFor r := by
  have hne : s.current_browser ≠ r := fun h => hdiff (by rw [h])
  have h1 : acquire s (some r) pc none =
      { out := Except.ok s.nextId,
        state := { playwright := true, browser_context := some s.nextId,
                   page := some s.nextId, current_browser := strLower r,
                   openContexts := s.nextId :: s.openContexts.erase c,
                   nextId := s.nextId + 1 },
        trace := [Event.closeContext c, Event.stopPlaywright,
                  Event.startPlaywright,
                  Event.launch (engineFor r) USER_DATA_DIR s.nextId] } := by
    simp [acquire, hc, hpw, hne, engineFor, Ne.symm hne]
  refine ⟨h1, ?_⟩
  rw [h1]
  rfl

/-- Claim C2 witness: switching a live chromium session to firefox. -/
theorem C2_witness :
    (acquire sLive (some "firefox") false none =
      { out := Except.ok 1,
        state := { playwright := true, browser_context := some 1,
                   page := some 1, current_browser := "firefox",
                   openContexts := [1], nextId := 2 },
        trace := [Event.closeContext 0, Event.stopPlaywright,
                  Event.startPlaywright,
                  Event.launch Engine.firefox USER_DATA_DIR 1] }) ∧
    selectEngine ((acquire sLive (some "firefox") false none).state.current_browser) =
      Engine.firefox :=
  C2_engine_switch sLive 0 "firefox" rfl rfl (by decide) false

/-- Claim C3 fails on the code: with a live chromium context (id 0) whose
page reports closed, an acquire for the same engine launches a second
context (id 1) without ever closing the first, so two contexts are open at
once — the close-before-launch step only runs when the requested engine name
differs. -/
theorem C3_second_context :
    (acquire sLive none true none).state.openContexts = [1, 0] ∧
    Event.closeContext 0 ∉ (acquire sLive none true none).trace ∧
    (acquire sLive none true none).trace =
      [Event.launch Engine.chromium USER_DATA_DIR 1] := by
  decide

/-- Claim C4: close is idempotent.  With a live context it answers
"Browser closed" and resets every global (context, page, playwright,
recorded engine); with none it answers "No browser running" and changes
nothing; and a second close always answers "No browser running". -/
theorem C4_close_idempotent (s : SessionState) :
    (∀ c, s.browser_context = some c →
      (close s).msg = "Browser closed" ∧
      (close s).state.browser_context = none ∧
      (close s).state.page = none ∧
      (close s).state.playwright = false ∧
      (close s).state.current_browser = "chromium") ∧
    (s.browser_context = none →
      (close s).msg = "No browser running" ∧ (close s).state = s) ∧
    (close (close s).state).msg = "No browser running" := by
  refine ⟨?_, ?_, ?_⟩
  · intro c hc; simp [close, hc]
  · intro hc; simp [close, hc]
  · cases hc : s.browser_context <;> simp [close, hc]

/-- Claim C4 witness: closing a live session then closing again. -/
theorem C4_witness :
    (close sLive).msg = "Browser closed" ∧
    (close (close sLive).state).msg = "No browser running" :=
  ⟨((C4_close_idempotent sLive).1 0 rfl).1, (C4_close_idempotent sLive).2.2⟩

/-- Claim C5 fails as stated: a missing engine identifier does not always
select Chromium.  With a live firefox session whose page is closed, an
acquire with no identifier launches Firefox. -/
theorem C5_counterexample :
    (acquire sFirefox none true none).trace =
      [Event.launch Engine.firefox USER_DATA_DIR 1] ∧
    Engine.firefox ≠ Engine.chromium := by
  decide

/-- Claim C5 (amended): for a present identifier the selection is a pure
total mapping into {Chromium, Firefox, WebKit}; it depends only on the
lowercased identifier (case-insensitive); empty and unrecognized identifiers
select Chromium; and a missing identifier is resolved to the recorded
current engine name (Chromium initially), not unconditionally to Chromium. -/
theorem C5_engine_selection (n : String) (s : SessionState) (pc : Bool)
    (lf : Option String) :
    (engineFor n = Engine.firefox ∨ engineFor n = Engine.webkit ∨
       engineFor n = Engine.chromium) ∧
    (strLower n ≠ "firefox" → strLower n ≠ "webkit" →
       engineFor n = Engine.chromium) ∧
    (engineFor "" = Engine.chromium) ∧
    (∀ m : String, strLower n = strLower m → engineFor n = engineFor m) ∧
    acquire s none pc lf = acquire s (some s.current_browser) pc lf := by
  refine ⟨?_, ?_, rfl, ?_, rfl⟩
  · unfold engineFor selectEngine
    split
    · exact Or.inl rfl
    · split
      · exact Or.inr (Or.inl rfl)
      · exact Or.inr (Or.inr rfl)
  · intro h1 h2
    unfold engineFor selectEngine
    simp [h1, h2]
  · intro m h
    unfold engineFor
    rw [h]

/-- Claim C5 witness: an unrecognized identifier selects Chromium,
matching is case-insensitive, and a missing identifier resolves to the
recorded current engine name. -/
theorem C5_witness :
    engineFor "OPERA" = Engine.chromium ∧
    engineFor "Firefox" = engineFor "firefox" ∧
    acquire initState none false none =
      acquire initState (some "chromium") false none :=
  ⟨(C5_engine_selection "OPERA" initState false none).2.1 (by decide) (by decide),
   (C5_engine_selection "Firefox" initState false none).2.2.2.1 "firefox" (by decide),
   (C5_engine_selection "chromium" initState false none).2.2.2.2⟩

/-- Claim C6: click input validation.  With neither selector nor text
truthy the result is a 400 "Either selector or text must be provided." and
nothing is clicked; with a truthy selector matching zero elements the
result is a 400 naming the selector and nothing is clicked; with at least
one match the first matching element is clicked. -/
theorem C6_click_selector (env : PageEnv) (inp : ClickInput) :
    (truthy inp.selector = false → truthy inp.text = false →
      click env inp =
        { out := Except.error
            { status := 400,
              detail := "Either selector or text must be provided." },
          actions := [] }) ∧
    (∀ sel, inp.selector = some sel → sel ≠ "" → env.selMatches sel = [] →
      click env inp =
        { out := Except.error
            { status := 400,
              detail := "Element with selector '" ++ sel ++
                "' not found on the page." },
          actions := [] }) ∧
    (∀ sel i rest, inp.selector = some sel → sel ≠ "" →
      env.selMatches sel = i :: rest →
      click env inp =
        { out := Except.ok ("Clicked first element matching " ++ sel),
          actions := [DomAction.clickEl i] }) := by
  refine ⟨?_, ?_, ?_⟩
  · intro h1 h2
    simp [click, h1, h2]
  · intro sel hsel hne hmatch
    simp [click, hsel, truthy, hne, selCount, hmatch]
  · intro sel i rest hsel hne hmatch
    simp [click, hsel, truthy, hne, selCount, hmatch]

/-- Claim C6 witness: the three click-validation branches at concrete
pages and inputs. -/
theorem C6_witness :
    click envEmpty { selector := none, text := none } =
      { out := Except.error
          { status := 400,
            detail := "Either selector or text must be provided." },
        actions := [] } ∧
    click envEmpty { selector := some "#x", text := none } =
      { out := Except.error
          { status := 400,
            detail := "Element with selector '#x' not found on the page." },
        actions := [] } ∧
    click envButtons { selector := some "#btn", text := none } =
      { out := Except.ok "Clicked first element matching #btn",
        actions := [DomAction.clickEl 1] } :=
  ⟨(C6_click_selector envEmpty { selector := none, text := none }).1 rfl rfl,
   (C6_click_selector envEmpty { selector := some "#x", text := none }).2.1
     "#x" rfl (by decide) rfl,
   (C6_click_selector envButtons { selector := some "#btn", text := none }).2.2
     "#btn" 1 [] rfl (by decide) (by decide)⟩

/-- Claim C7 fails as stated: with a selector matching two elements the
program does not fill the first match.  `element.fill` at src/app.py line
395 acts on the whole locator (no `.first`), playwright's strict mode
raises, and line 401 answers a 500 "Fill failed: " error with nothing
filled. -/
theorem C7_counterexample :
    (fill envTwo { selector := ".btn", value := "x" }).out =
      Except.error { status := 500, detail := "Fill failed: " ++ strictModeMsg } ∧
    (fill envTwo { selector := ".btn", value := "x" }).actions = [] := by
  decide

/-- Claim C7 (amended): a selector matching zero elements yields a 400
naming the selector and nothing is filled; a selector matching exactly one
element fills that element with the literal value and returns a
confirmation naming selector and value; a selector matching two or more
elements raises a strict-mode violation that surfaces as a 500
"Fill failed: " error, and nothing is filled. -/
theorem C7_fill_strict (env : PageEnv) (inp : FillInput) :
    (env.selMatches inp.selector = [] →
      fill env inp =
        { out := Except.error
            { status := 400,
              detail := "Element with selector '" ++ inp.selector ++
                "' not found on the page." },
          actions := [] }) ∧
    (∀ i, env.selMatches inp.selector = [i] →
      fill env inp =
        { out := Except.ok
            ("Filled " ++ inp.selector ++ " with '" ++ inp.value ++ "'"),
          actions := [DomAction.fillEl i inp.value] }) ∧
    (∀ i j rest, env.selMatches inp.selector = i :: j :: rest →
      fill env inp =
        { out := Except.error
            { status := 500, detail := "Fill failed: " ++ strictModeMsg },
          actions := [] }) := by
  refine ⟨?_, ?_, ?_⟩
  · intro hmatch
    simp [fill, selCount, hmatch]
  · intro i hmatch
    simp [fill, selCount, hmatch]
  · intro i j rest hmatch
    simp [fill, selCount, hmatch]

/-- Claim C7 witness: fill at a concrete missing selector, a concrete
single-match selector (the value passed through verbatim, untrimmed), and a
concrete two-match selector. -/
theorem C7_fill_strict_witness :
    fill envEmpty { selector := "#q", value := " hello " } =
      { out := Except.error
          { status := 400,
            detail := "Element with selector '#q' not found on the page." },
        actions := [] } ∧
    fill envButtons { selector := "#btn", value := " hello " } =
      { out := Except.ok "Filled #btn with ' hello '",
        actions := [DomAction.fillEl 1 " hello "] } ∧
    fill envTwo { selector := ".btn", value := "y" } =
      { out := Except.error
          { status := 500, detail := "Fill failed: " ++ strictModeMsg },
        actions := [] } :=
  ⟨(C7_fill_strict envEmpty { selector := "#q", value := " hello " }).1 rfl,
   (C7_fill_strict envButtons { selector := "#btn", value := " hello " }).2.1
     1 (by decide),
   (C7_fill_strict envTwo { selector := ".btn", value := "y" }).2.2
     0 1 [] (by decide)⟩

/-- Claim C9 fails on the code in the stale-page path: when the launch
raises during an acquire that found the current page closed (same engine),
the failure is surfaced with its cause (navigate turns it into a 500), but
the session state is not left Closed — the old context and the closed page
remain recorded and playwright remains running. -/
theorem C9_launch_failure :
    (acquire sLive none true (some "boom")).out = Except.error "boom" ∧
    (acquire sLive none true (some "boom")).state.browser_context = some 0 ∧
    (acquire sLive none true (some "boom")).state.page = some 0 ∧
    (acquire sLive none true (some "boom")).state.playwright = true ∧
    (navigate sLive none true (some "boom")).out = Except.error (500, "boom") := by
  decide

/-- Claim C10: close resets the recorded engine to "chromium", so the next
acquire without an explicit engine (as issued by click, fill, screenshot,
and eval) launches Chromium, whatever engine was live before. -/
theorem C10_reset_engine (s : SessionState) (c : Nat)
    (hc : s.browser_context = some c) (pc : Bool) :
    (close s).state.current_browser = "chromium" ∧
    acquire (close s).state none pc none =
      { out := Except.ok s.nextId,
        state := { playwright := true, browser_context := some s.nextId,
                   page := some s.nextId, current_browser := "chromium",
                   openContexts := s.nextId :: s.openContexts.erase c,
                   nextId := s.nextId + 1 },
        trace := [Event.startPlaywright,
                  Event.launch Engine.chromium USER_DATA_DIR s.nextId] } := by
  constructor
  · simp [close, hc]
  · simp [close, hc, acquire, strLowerChromium, selectChromium]

/-- Claim C10 witness: after closing a live firefox session, an acquire
with no engine launches Chromium. -/
theorem C10_witness :
    (close sFirefox).state.current_browser = "chromium" ∧
    acquire (close sFirefox).state none false none =
      { out := Except.ok 1,
        state := { playwright := true, browser_context := some 1,
                   page := some 1, current_browser := "chromium",
                   openContexts := [1], nextId := 2 },
        trace := [Event.startPlaywright,
                  Event.launch Engine.chromium USER_DATA_DIR 1] } :=
  C10_reset_engine sFirefox 0 rfl false

end Broadd
